import Mathlib

/-!
Shallow embedding of the core of the `yuki` personal-finance app
(`src/app/src-tauri/src/llm.rs`, `src/app/src-tauri/src/commands.rs`) and
proofs about the SQL safety gate, the query pipeline, the response parsers,
the statement chunker and the conversation-context builder.

Rust `String` values are modelled as `List Char` (one element per Unicode
scalar value) except where byte-level behaviour matters
(`build_conversation_context` slices by *bytes*, so there the model works on
UTF-8 byte lists).  Calls into `serde_json`, the SQLite store and the HTTP
backends are modelled as oracle parameters: the embedded functions are
parametric in them exactly where the Rust code calls out to them.
-/

namespace Yuki

/-- Strings at Unicode-scalar granularity. -/
abbrev Str := List Char

/-! ### String primitives used by the Rust code -/

/-- Model of Rust `char::is_whitespace` restricted to the ASCII whitespace
characters that occur in practice (space, tab, newline, carriage return);
Rust additionally trims other Unicode White_Space code points. -/
def rustIsWhitespace (c : Char) : Bool :=
  c = ' ' || c = '\t' || c = '\n' || c = '\r'

/-- Model of Rust `str::trim`: remove leading and trailing whitespace. -/
def rustTrim (s : Str) : Str :=
  ((s.dropWhile rustIsWhitespace).reverse.dropWhile rustIsWhitespace).reverse

/-- Model of Rust `char::to_uppercase` on the ASCII fragment: maps `a..z` to
`A..Z` and leaves every other character unchanged.  (the full Unicode
mapping agrees with this on ASCII, which is the alphabet of every string the
gate compares against.) -/
def charToUppercase (c : Char) : Char :=
  if 'a' ≤ c ∧ c ≤ 'z' then Char.ofNat (c.toNat - 32) else c

/-- Model of Rust `str::to_uppercase` (ASCII fragment, character-wise). -/
def toUppercase (s : Str) : Str :=
  s.map charToUppercase

/-- Model of Rust `str::find(char)`: index of the first occurrence. -/
def findIdxFirst (c : Char) (s : Str) : Option Nat :=
  s.findIdx? (· = c)

/-- Model of Rust `str::rfind(char)`: index of the last occurrence. -/
def findIdxLast (c : Char) (s : Str) : Option Nat :=
  match s.reverse.findIdx? (· = c) with
  | some i => some (s.length - 1 - i)
  | none => none

/-- Model of the Rust slice `&s[a..b]` (for `a ≤ b ≤ s.len()`). -/
def sliceRange (s : Str) (a b : Nat) : Str :=
  (s.drop a).take (b - a)

/-- Strip-loop of `str::trim_start_matches` with explicit fuel (structural
recursion so the kernel can evaluate it; one strip shortens the string, so
`s.length + 1` units of fuel always suffice to reach the fixed point). -/
def stripStartMatchesAux (p : Str) : Nat → Str → Str
  | 0, s => s
  | fuel + 1, s =>
    if p ≠ [] ∧ p.isPrefixOf s ∧ s ≠ [] then
      stripStartMatchesAux p fuel (s.drop p.length)
    else s

/-- Model of Rust `str::trim_start_matches(pat)`: repeatedly remove the
pattern from the front while it matches. -/
def stripStartMatches (p : Str) (s : Str) : Str :=
  stripStartMatchesAux p (s.length + 1) s

/-- Model of Rust `str::trim_end_matches(pat)`: repeatedly remove the pattern
from the back while it matches. -/
def stripEndMatches (p : Str) (s : Str) : Str :=
  (stripStartMatches p.reverse s.reverse).reverse

/-! ### SQL safety gate and `execute_query` (commands.rs:881-922)

The SQLite connection is abstracted as an oracle
`store : Str → Except Str QueryResult` standing for
`conn.prepare(sql)` + `query_map` + the fixed value-serialization table; the
oracle either fails with an error string or yields the column names and the
mapped rows.  `execute_query` consults the oracle only after the SELECT-only
check passes; the returned `row_count` field of the JSON is by construction
`rows.len()`, which the model keeps as `rows.length`. -/

/-- One value of a result cell after the fixed mapping table of `execute_query`:
SQL NULL, integer, float (uninterpreted IEEE-754 bit pattern), text, or the
`<blob n bytes>` placeholder. -/
inductive DbValue where
  | null : DbValue
  | integer : Int → DbValue
  | real : Nat → DbValue
  | text : Str → DbValue
  | blobPlaceholder : Nat → DbValue
deriving DecidableEq, Repr

/-- The structured content of the JSON object `execute_query` returns
(`columns`, `rows`; its `row_count` field is `rows.len()`). -/
structure QueryResult where
  columns : List Str
  rows : List (List DbValue)
deriving DecidableEq, Repr

/-- The SELECT-only check of `execute_query`:
`sql.trim().to_uppercase().starts_with("SELECT")`. -/
def sqlSelectGate (sql : Str) : Bool :=
  "SELECT".data.isPrefixOf (toUppercase (rustTrim sql))

/-- Error message returned when the gate rejects. -/
def onlySelectMsg : Str := "Only SELECT queries are allowed".data

/-- Model of `execute_query` (commands.rs:881-922): gate first, then prepare/run via
the store oracle.  The second component records whether a statement was
prepared against the store (`some sql`) or not (`none`). -/
def execute_query (store : Str → Except Str QueryResult) (sql : Str) :
    Except Str QueryResult × Option Str :=
  if sqlSelectGate sql then (store sql, some sql) else (Except.error onlySelectMsg, none)

/-! ### Response cards (models.rs:146-199) -/

/-- Rust `TextContent` with fields body and is_error. -/
structure TextContent where
  body : Str
  is_error : Option Bool
deriving DecidableEq, Repr

/-- Rust `ChartDataPoint`; the value is an uninterpreted f64 bit pattern. -/
structure ChartDataPoint where
  label : Str
  value : Nat
deriving DecidableEq, Repr

/-- Rust `ChartContent`. -/
structure ChartContent where
  chart_type : Str
  title : Str
  data : List ChartDataPoint
  caption : Option Str
deriving DecidableEq, Repr

/-- Rust `TableContent`. -/
structure TableContent where
  title : Str
  columns : List Str
  rows : List (List Str)
  summary : Option Str
deriving DecidableEq, Repr

/-- Rust `MixedContent`. -/
structure MixedContent where
  body : Str
  chart : ChartContent
deriving DecidableEq, Repr

/-- The tagged union `ResponseCard`. -/
inductive ResponseCard where
  | text : TextContent → ResponseCard
  | chart : ChartContent → ResponseCard
  | table : TableContent → ResponseCard
  | mixed : MixedContent → ResponseCard
deriving DecidableEq, Repr

/-- Rust `ResponseData`: the list of cards. -/
structure ResponseData where
  cards : List ResponseCard
deriving DecidableEq, Repr

/-! ### `parse_llm_response` (llm.rs:1452-1488)

`serde_json::from_str::<ResponseData>` is abstracted as an oracle
`serde : Str → Option ResponseData` (`none` = parse error); the embedded
function applies it to exactly the candidate strings the Rust code builds.
The result type is `Option ResponseData`: `none` models a Rust panic, which
happens at the slice `&response_text[start..=end]` exactly when the first
`{` sits more than one position after the last `}` (Rust slices with
`start > end + 1` panic; `start = end + 1` is the legal empty slice). -/

/-- The fence-stripping chain of `parse_llm_response` / `analyze_query`:
`trim → trim_start_matches("```json") → trim_start_matches("```")
→ trim_end_matches("```") → trim`. -/
def cleanedOf (s : Str) : Str :=
  rustTrim (stripEndMatches "```".data
    (stripStartMatches "```".data (stripStartMatches "```json".data (rustTrim s))))

/-- The final fallback of `parse_llm_response`: the raw text verbatim as one
non-error text card. -/
def fallbackTextCard (s : Str) : ResponseData :=
  ⟨[ResponseCard.text ⟨s, some false⟩]⟩

/-- Model of `parse_llm_response` (llm.rs:1452-1488).  Attempts, in order: raw text,
fence-stripped text, the substring from the first `{` to the last `}`;
otherwise wraps the raw text as a non-error text card.  `none` models the
slice panic. -/
def parse_llm_response (serde : Str → Option ResponseData) (response_text : Str) :
    Option ResponseData :=
  match serde response_text with
  | some r => some r
  | none =>
    match serde (cleanedOf response_text) with
    | some r => some r
    | none =>
      match findIdxFirst '\x7b' response_text, findIdxLast '\x7d' response_text with
      | some star, some en =>
        if star > en + 1 then none
        else
          match serde (sliceRange response_text star (en + 1)) with
          | some r => some r
          | none => some (fallbackTextCard response_text)
      | some _, none => some (fallbackTextCard response_text)
      | none, _ => some (fallbackTextCard response_text)

/-! ### `QueryAnalysis` and the parse tail of `analyze_query`
(llm.rs:1140-1144, 1293-1331) -/

/-- Rust `QueryAnalysis` with fields needs_data, sql_query and query_type. -/
structure QueryAnalysis where
  needs_data : Bool
  sql_query : Option Str
  query_type : Str
deriving DecidableEq, Repr

/-- The default analysis produced when every parse attempt fails. -/
def defaultAnalysis : QueryAnalysis :=
  ⟨false, none, "general".data⟩

/-- The parsing tail of `analyze_query` (llm.rs:1293-1331): parse the
fence-stripped response; on failure parse the substring of the *raw*
response from the first `{` to the last `}`; on failure fall back to
`defaultAnalysis`.  `none` models the same slice panic as in
`parse_llm_response` (here the slice is `&response_text[start..=end]`). -/
def analyze_query_parse (serde : Str → Option QueryAnalysis) (response_text : Str) :
    Option QueryAnalysis :=
  match serde (cleanedOf response_text) with
  | some qa => some qa
  | none =>
    match findIdxFirst '\x7b' response_text, findIdxLast '\x7d' response_text with
    | some star, some en =>
      if star > en + 1 then none
      else
        match serde (sliceRange response_text star (en + 1)) with
        | some qa => some qa
        | none => some defaultAnalysis
    | some _, none => some defaultAnalysis
    | none, _ => some defaultAnalysis

/-! ### `process_query` (commands.rs:753-878)

The effectful collaborators of the pipeline are oracles:
`settingsOutcome` models `get_settings` (which can fail, and whose
`provider` may be absent), `analyzeOutcome` models `llm::analyze_query`,
`store` models the SQLite connection inside `execute_query`,
`formatOutcome` models `llm::format_query_results` and `convOutcome` models
`llm::process_conversational_query`.  Session bookkeeping, history loading
and `save_message` have their errors swallowed by the Rust code (`let _`,
`unwrap_or_default`) and do not influence the returned value, so they are
not part of the model.  The `Effect` trace records, in order, which
collaborators were actually invoked. -/

/-- Observable effects of one `process_query` invocation. -/
inductive Effect where
  | analyzeLLM : Effect
  | prepareSql : Str → Effect
  | formatLLM : Effect
  | convLLM : Effect
deriving DecidableEq, Repr

/-- The fixed friendly card returned on an empty result set
(commands.rs:812-817). -/
def emptyResultCard : ResponseData :=
  ⟨[ResponseCard.text
    ⟨("I don\x27t have any data matching that query yet. Try uploading some financial documents or receipts first, and then I can help you analyze your spending!").data,
     some false⟩]⟩

/-- The error card built when SQL execution fails (commands.rs:848-853):
the message is the underlying error followed by the offending SQL, with
`is_error: Some(true)`. -/
def sqlErrorCard (e sql : Str) : ResponseData :=
  ⟨[ResponseCard.text
    ⟨"I couldn\x27t retrieve that data. Error: ".data ++ e ++ " in ".data ++ sql,
     some true⟩]⟩

/-- Model of `process_query` (commands.rs:753-878), returning the command result plus
the trace of collaborator invocations. -/
def process_query (settingsOutcome : Except Str (Option Unit))
    (analyzeOutcome : Except Str QueryAnalysis)
    (store : Str → Except Str QueryResult)
    (formatOutcome : Except Str ResponseData)
    (convOutcome : Except Str ResponseData) :
    Except Str ResponseData × List Effect :=
  match settingsOutcome with
  | Except.error e => (Except.error e, [])
  | Except.ok none => (Except.error "No LLM provider configured".data, [])
  | Except.ok (some _) =>
    match analyzeOutcome with
    | Except.error e => (Except.error e, [Effect.analyzeLLM])
    | Except.ok qa =>
      if qa.needs_data then
        let sql := qa.sql_query.getD []
        match execute_query store sql with
        | (Except.ok data, prepared) =>
          let prepEff := match prepared with
            | some s => [Effect.prepareSql s]
            | none => []
          if data.rows.length = 0 then
            (Except.ok emptyResultCard, Effect.analyzeLLM :: prepEff)
          else
            match formatOutcome with
            | Except.error e =>
              (Except.error e, Effect.analyzeLLM :: prepEff ++ [Effect.formatLLM])
            | Except.ok rd =>
              (Except.ok rd, Effect.analyzeLLM :: prepEff ++ [Effect.formatLLM])
        | (Except.error e, prepared) =>
          let prepEff := match prepared with
            | some s => [Effect.prepareSql s]
            | none => []
          (Except.ok (sqlErrorCard e sql), Effect.analyzeLLM :: prepEff)
      else
        match convOutcome with
        | Except.error e => (Except.error e, [Effect.analyzeLLM, Effect.convLLM])
        | Except.ok rd => (Except.ok rd, [Effect.analyzeLLM, Effect.convLLM])

/-! ### Provider dispatch (llm.rs:39-91)

`call_llm` and `call_llm_with_vision` dispatch on
`provider.provider_type`; everything after dispatch is one HTTP round-trip,
abstracted as a per-backend oracle.  The dispatch itself is pure string
matching and is embedded exactly. -/

/-- The text-completion backends of `call_llm` (llm.rs:49-57). -/
inductive TextBackend where
  | anthropic : TextBackend
  | openaiCompatible : TextBackend
  | ollama : TextBackend
  | google : TextBackend
deriving DecidableEq, Repr

/-- The vision backends of `call_llm_with_vision` (llm.rs:79-83). -/
inductive VisionBackend where
  | anthropicVision : VisionBackend
  | openaiVision : VisionBackend
deriving DecidableEq, Repr

/-- Dispatch of `call_llm` (llm.rs:49-57): `none` is the
`"Unsupported provider"` error arm. -/
def call_llm_dispatch (provider_type : Str) : Option TextBackend :=
  if provider_type = "anthropic".data then some TextBackend.anthropic
  else if provider_type = "openai".data ∨ provider_type = "openrouter".data ∨
      provider_type = "lmstudio".data then some TextBackend.openaiCompatible
  else if provider_type = "ollama".data then some TextBackend.ollama
  else if provider_type = "google".data then some TextBackend.google
  else none

/-- Dispatch of `call_llm_with_vision` (llm.rs:79-83): `none` is the
`"Vision not supported for provider"` error arm. -/
def call_llm_with_vision_dispatch (provider_type : Str) : Option VisionBackend :=
  if provider_type = "anthropic".data then some VisionBackend.anthropicVision
  else if provider_type = "openai".data ∨ provider_type = "openrouter".data then
    some VisionBackend.openaiVision
  else none

/-- Model of `call_llm_with_vision` with the per-backend HTTP round-trips abstracted
as oracles: when dispatch fails no oracle is consulted and the explicit
unsupported error is returned. -/
def call_llm_with_vision (backendCall : VisionBackend → Except Str Str)
    (provider_type : Str) : Except Str Str :=
  match call_llm_with_vision_dispatch provider_type with
  | some b => backendCall b
  | none => Except.error ("Vision not supported for provider: ".data ++ provider_type)

/-! ### Statement chunker (llm.rs:862-1023)

`ExtractedTransaction` payloads and the per-chunk PDF bytes never influence
control flow, so transactions are an arbitrary type parameter `τ` and the
vision round-trip for a chunk is an oracle `vision start end` returning the
response text (or the error of the call).  `serde_json::from_str::<Vec<_>>` is an
oracle `serdeTx`.  An outer `none` models a Rust panic (the slice
`&response[json_start..json_end]` in `parse_statement_chunk` panics when
`json_start > json_end`). -/

/-- Chunk geometry of `parse_pdf_statement_chunked` (llm.rs:887-894):
`chunk_size = 2`, `total_chunks = (page_count + chunk_size - 1) / chunk_size`,
chunk `i` covers pages `i*2+1 .. min (i*2+2) page_count` (1-indexed). -/
def chunkWindows (page_count : Nat) : List (Nat × Nat) :=
  (List.range ((page_count + 2 - 1) / 2)).map
    (fun i => (i * 2 + 1, min (i * 2 + 2) page_count))

/-- The 1-indexed page range a window covers: pages `w.1 .. w.2`. -/
def pagesOfWindow (w : Nat × Nat) : List Nat :=
  List.range' w.1 (w.2 + 1 - w.1)

/-- Model of `parse_statement_chunk` (llm.rs:946-1023) with the LLM call outcome and
serde as oracles.  A failed LLM call propagates as an error (`?` on
llm.rs:1001); unparseable output falls back to the `[`..`]` substring and
then to the empty list; `none` is the substring-slice panic. -/
def parse_statement_chunk (τ : Type) (visionOutcome : Except Str Str)
    (serdeTx : Str → Option (List τ)) : Option (Except Str (List τ)) :=
  match visionOutcome with
  | Except.error e => some (Except.error e)
  | Except.ok response =>
    match serdeTx response with
    | some txs => some (Except.ok txs)
    | none =>
      let json_start := (findIdxFirst '[' response).getD 0
      let json_end := ((findIdxLast ']' response).map (· + 1)).getD response.length
      if json_start > json_end then none
      else some (Except.ok ((serdeTx (sliceRange response json_start json_end)).getD []))

/-- The chunk loop of `parse_pdf_statement_chunked` (llm.rs:892-916):
sequentially runs the chunk call of each window, propagating errors (`?`) and
panics, and extends the accumulator in window order. -/
def runChunkLoop (τ : Type) (windows : List (Nat × Nat))
    (chunkCall : Nat → Nat → Option (Except Str (List τ))) :
    Option (Except Str (List τ)) :=
  match windows with
  | [] => some (Except.ok [])
  | (s, e) :: rest =>
    match chunkCall s e with
    | none => none
    | some (Except.error err) => some (Except.error err)
    | some (Except.ok txs) =>
      match runChunkLoop τ rest chunkCall with
      | none => none
      | some (Except.error err) => some (Except.error err)
      | some (Except.ok more) => some (Except.ok (txs ++ more))

/-- Model of `parse_pdf_statement_chunked` (llm.rs:862-920): `page_count ≤ 3`
delegates to the single whole-document call (`wholeOutcome`,
modelling `parse_single_page_statement`); otherwise the windows are
processed in order.  The pure PDF page extraction (`extract_pdf_pages`) and
base64 step are folded into the per-chunk oracle. -/
def parse_pdf_statement_chunked (τ : Type) (page_count : Nat)
    (wholeOutcome : Except Str (List τ))
    (visionOutcome : Nat → Nat → Except Str Str)
    (serdeTx : Str → Option (List τ)) : Option (Except Str (List τ)) :=
  if page_count ≤ 3 then some wholeOutcome
  else runChunkLoop τ (chunkWindows page_count)
    (fun s e => parse_statement_chunk τ (visionOutcome s e) serdeTx)

/-! ### `build_conversation_context` (llm.rs:17-36)

This function slices message bodies by *bytes*
(`msg.content.len() > 500`, `&msg.content[..500]`), so the model works on
UTF-8 byte lists.  The slice `&msg.content[..500]` panics when byte 500 is
not a character boundary; `none` models that panic.  A byte begins a UTF-8
continuation sequence iff it lies in `0x80..0xBF`. -/

/-- UTF-8 byte strings. -/
abbrev ByteStr := List Nat

/-- Rust `str::is_char_boundary(i)` for a valid UTF-8 byte list: `i` is `0`,
the length, or the byte at `i` is not a continuation byte. -/
def isCharBoundary (s : ByteStr) (i : Nat) : Bool :=
  i = 0 || i = s.length ||
    !(decide (0x80 ≤ s.getD i 0) && decide (s.getD i 0 < 0xC0))

/-- A conversation message (models.rs:33-37), body at byte granularity. -/
structure ConversationMessage where
  role : ByteStr
  content : ByteStr
deriving DecidableEq, Repr

/-- UTF-8 bytes of a Lean string literal: every literal fed to this
function is ASCII, where the UTF-8 encoding is the code point itself. -/
def utf8Bytes (s : String) : ByteStr :=
  s.data.map Char.toNat

/-- The per-message truncation of `build_conversation_context`
(llm.rs:27-31): bodies longer than 500 *bytes* are cut to their first 500
bytes plus `"..."`; `none` models the slice panic when byte 500 is not a
character boundary. -/
def truncateContent (content : ByteStr) : Option ByteStr :=
  if content.length > 500 then
    if isCharBoundary content 500 then some (content.take 500 ++ utf8Bytes "...")
    else none
  else some content

/-- One rendered history line (llm.rs:25-32): role label, `": "`, truncated
body, newline. -/
def renderMessage (msg : ConversationMessage) : Option ByteStr :=
  let role := if msg.role = utf8Bytes "user" then utf8Bytes "User" else utf8Bytes "Yuki"
  (truncateContent msg.content).map (fun c => role ++ utf8Bytes ": " ++ c ++ utf8Bytes "\n")

/-- Renders a list of messages in order, propagating a panic. -/
def renderMessages (msgs : List ConversationMessage) : Option ByteStr :=
  match msgs with
  | [] => some []
  | m :: rest =>
    match renderMessage m, renderMessages rest with
    | some line, some more => some (line ++ more)
    | _, _ => none

/-- Model of `build_conversation_context` (llm.rs:17-36): empty history yields the
empty string; otherwise the fixed header, at most the first 10 messages
rendered in order, and the fixed footer. -/
def build_conversation_context (history : List ConversationMessage) : Option ByteStr :=
  if history = [] then some []
  else
    (renderMessages (history.take 10)).map (fun body =>
      utf8Bytes "\n\n## Recent Conversation History\n" ++ body ++
        utf8Bytes "\n---\nCurrent message:\n")

/-! ## Theorems -/

/-- C1: for every string, `execute_query` runs it against the store only if
its trimmed, case-normalized text starts with SELECT, and rejects every
other string before any statement is prepared (the result is the fixed
error, independent of the store); "DELETE FROM ledger" is rejected, while
" select 1" and "SELECTed" pass the gate — literal prefix semantics, not
word-boundary semantics. -/
theorem c1_sql_safety_gate :
    (∀ (store : Str → Except Str QueryResult) (sql : Str),
        sqlSelectGate sql = false →
        execute_query store sql = (Except.error onlySelectMsg, none)) ∧
    (∀ (store : Str → Except Str QueryResult) (sql : Str),
        sqlSelectGate sql = true →
        execute_query store sql = (store sql, some sql)) ∧
    sqlSelectGate "DELETE FROM ledger".data = false ∧
    sqlSelectGate " select 1".data = true ∧
    sqlSelectGate "SELECTed".data = true := by
  refine ⟨?_, ?_, by decide, by decide, by decide⟩
  · intro store sql h
    simp [execute_query, h]
  · intro store sql h
    simp [execute_query, h]

/-- Witness for C1: the gate concretely rejects "DELETE FROM ledger" and
concretely admits " select 1". -/
theorem c1_sql_safety_gate_witness :
    execute_query (fun _ => Except.error []) "DELETE FROM ledger".data =
        (Except.error onlySelectMsg, none) ∧
    execute_query (fun _ => Except.ok ⟨[], [[DbValue.integer 1]]⟩) " select 1".data =
        (Except.ok ⟨[], [[DbValue.integer 1]]⟩, some " select 1".data) :=
  ⟨c1_sql_safety_gate.1 _ _ (by decide),
   c1_sql_safety_gate.2.1 _ _ (by decide)⟩

/-- C10: an analysis with needs_data true but sql_query absent makes the
pipeline run the empty string through the gate, which rejects it; the
invocation still returns Ok with exactly one is_error:true text card, and
no statement is ever prepared against the store. -/
theorem c10_missing_sql_rejected_gracefully :
    ∀ (query_type : Str) (store : Str → Except Str QueryResult)
      (fmt conv : Except Str ResponseData),
      process_query (Except.ok (some ())) (Except.ok ⟨true, none, query_type⟩)
          store fmt conv =
        (Except.ok (sqlErrorCard onlySelectMsg []), [Effect.analyzeLLM]) ∧
      sqlErrorCard onlySelectMsg [] =
        ⟨[ResponseCard.text
          ⟨"I couldn\x27t retrieve that data. Error: ".data ++ onlySelectMsg ++ " in ".data,
           some true⟩]⟩ := by
  intro query_type store fmt conv
  exact ⟨rfl, rfl⟩

/-- C4: with needs_data true and a successful SQL execution returning zero
rows, the pipeline performs no formatting LLM call and returns exactly one
non-error text card (the fixed friendly message); with needs_data false, no
statement is ever run against the database for that invocation. -/
theorem c4_empty_result_and_no_data_paths :
    ∀ (qa : QueryAnalysis) (store : Str → Except Str QueryResult)
      (fmt conv : Except Str ResponseData),
      (qa.needs_data = true →
        ∀ (res : QueryResult) (prep : Option Str),
          execute_query store (qa.sql_query.getD []) = (Except.ok res, prep) →
          res.rows.length = 0 →
          (process_query (Except.ok (some ())) (Except.ok qa) store fmt conv).1 =
              Except.ok emptyResultCard ∧
            Effect.formatLLM ∉
              (process_query (Except.ok (some ())) (Except.ok qa) store fmt conv).2 ∧
            ∃ body, emptyResultCard.cards = [ResponseCard.text ⟨body, some false⟩]) ∧
      (qa.needs_data = false →
        (process_query (Except.ok (some ())) (Except.ok qa) store fmt conv).2 =
            [Effect.analyzeLLM, Effect.convLLM] ∧
          ∀ s, Effect.prepareSql s ∉
            (process_query (Except.ok (some ())) (Except.ok qa) store fmt conv).2) := by
  intro qa store fmt conv
  constructor
  · intro hqa res prep hexec hrows
    cases prep with
    | none =>
      have key : process_query (Except.ok (some ())) (Except.ok qa) store fmt conv =
          (Except.ok emptyResultCard, [Effect.analyzeLLM]) := by
        simp [process_query, hqa, hexec, hrows]
      exact ⟨by rw [key], by rw [key]; simp, ⟨_, rfl⟩⟩
    | some s =>
      have key : process_query (Except.ok (some ())) (Except.ok qa) store fmt conv =
          (Except.ok emptyResultCard, [Effect.analyzeLLM, Effect.prepareSql s]) := by
        simp [process_query, hqa, hexec, hrows]
      exact ⟨by rw [key], by rw [key]; simp, ⟨_, rfl⟩⟩
  · intro hqa
    have key : (process_query (Except.ok (some ())) (Except.ok qa) store fmt conv).2 =
        [Effect.analyzeLLM, Effect.convLLM] := by
      cases conv with
      | error e => simp [process_query, hqa]
      | ok rd => simp [process_query, hqa]
    exact ⟨key, fun s => by rw [key]; simp⟩

/-- Witness for C4: both branches exercised at concrete inputs — a query
whose store run returns zero rows, and a needs_data:false analysis. -/
theorem c4_empty_result_and_no_data_paths_witness :
    ((process_query (Except.ok (some ()))
        (Except.ok ⟨true, some "SELECT 1".data, "data_query".data⟩)
        (fun _ => Except.ok ⟨["c".data], []⟩)
        (Except.ok ⟨[]⟩) (Except.ok ⟨[]⟩)).1 = Except.ok emptyResultCard ∧
      Effect.formatLLM ∉
        (process_query (Except.ok (some ()))
          (Except.ok ⟨true, some "SELECT 1".data, "data_query".data⟩)
          (fun _ => Except.ok ⟨["c".data], []⟩)
          (Except.ok ⟨[]⟩) (Except.ok ⟨[]⟩)).2 ∧
      ∃ body, emptyResultCard.cards = [ResponseCard.text ⟨body, some false⟩]) ∧
    ((process_query (Except.ok (some ()))
        (Except.ok ⟨false, none, "general".data⟩)
        (fun _ => Except.ok ⟨["c".data], []⟩)
        (Except.ok ⟨[]⟩) (Except.ok ⟨[]⟩)).2 =
          [Effect.analyzeLLM, Effect.convLLM] ∧
      ∀ s, Effect.prepareSql s ∉
        (process_query (Except.ok (some ()))
          (Except.ok ⟨false, none, "general".data⟩)
          (fun _ => Except.ok ⟨["c".data], []⟩)
          (Except.ok ⟨[]⟩) (Except.ok ⟨[]⟩)).2) :=
  ⟨(c4_empty_result_and_no_data_paths ⟨true, some "SELECT 1".data, "data_query".data⟩
      (fun _ => Except.ok ⟨["c".data], []⟩) (Except.ok ⟨[]⟩) (Except.ok ⟨[]⟩)).1
    rfl ⟨["c".data], []⟩ (some "SELECT 1".data) rfl rfl,
   (c4_empty_result_and_no_data_paths ⟨false, none, "general".data⟩
      (fun _ => Except.ok ⟨["c".data], []⟩) (Except.ok ⟨[]⟩) (Except.ok ⟨[]⟩)).2
    rfl⟩

/-- C7: whenever SQL execution fails (gate rejection or store error), the
pipeline returns Ok with one text card whose is_error is true and whose
body contains both the underlying error message and the offending SQL. -/
theorem c7_sql_failure_becomes_error_card :
    ∀ (qa : QueryAnalysis) (store : Str → Except Str QueryResult)
      (fmt conv : Except Str ResponseData) (e : Str) (prep : Option Str),
      qa.needs_data = true →
      execute_query store (qa.sql_query.getD []) = (Except.error e, prep) →
      (process_query (Except.ok (some ())) (Except.ok qa) store fmt conv).1 =
          Except.ok (sqlErrorCard e (qa.sql_query.getD [])) ∧
      ∃ pre mid, (sqlErrorCard e (qa.sql_query.getD [])).cards =
          [ResponseCard.text ⟨pre ++ e ++ (mid ++ qa.sql_query.getD []), some true⟩] := by
  intro qa store fmt conv e prep hqa hexec
  constructor
  · cases prep with
    | none => simp [process_query, hqa, hexec]
    | some s => simp [process_query, hqa, hexec]
  · exact ⟨"I couldn\x27t retrieve that data. Error: ".data, " in ".data, by
      simp [sqlErrorCard, List.append_assoc]⟩

/-- Witness for C7: a store that rejects the (gate-passing) statement
yields the error card embedding both the message and the SQL. -/
theorem c7_sql_failure_becomes_error_card_witness :
    (process_query (Except.ok (some ()))
        (Except.ok ⟨true, some "SELECT nope".data, "data_query".data⟩)
        (fun _ => Except.error "no such column: nope".data)
        (Except.ok ⟨[]⟩) (Except.ok ⟨[]⟩)).1 =
      Except.ok (sqlErrorCard "no such column: nope".data "SELECT nope".data) ∧
    ∃ pre mid, (sqlErrorCard "no such column: nope".data "SELECT nope".data).cards =
        [ResponseCard.text
          ⟨pre ++ "no such column: nope".data ++ (mid ++ "SELECT nope".data),
           some true⟩] :=
  c7_sql_failure_becomes_error_card ⟨true, some "SELECT nope".data, "data_query".data⟩
    (fun _ => Except.error "no such column: nope".data) (Except.ok ⟨[]⟩) (Except.ok ⟨[]⟩)
    "no such column: nope".data (some "SELECT nope".data) rfl rfl

/-- Helper: flattening the page ranges of the first `k` chunk windows gives
the contiguous page range `1 .. min (2*k) n`. -/
theorem flatWindows_eq_range (n : Nat) :
    ∀ k : Nat, 2 * k ≤ n + 1 →
      ((List.range k).map (fun i => (i * 2 + 1, min (i * 2 + 2) n))).flatMap
          pagesOfWindow = List.range' 1 (min (2 * k) n)
  | 0, _ => by simp
  | k + 1, hk => by
    have ih := flatWindows_eq_range n k (by omega)
    rw [List.range_succ, List.map_append, List.flatMap_append, ih]
    simp only [List.map_cons, List.map_nil, List.flatMap_cons, List.flatMap_nil,
      List.append_nil, pagesOfWindow]
    have h2k : min (2 * k) n = 2 * k := by omega
    rw [h2k, show k * 2 + 1 = 1 + 2 * k from by omega, List.range'_append_1]
    congr 1
    omega

/-- Helper: when every chunk call succeeds, the chunk loop returns the
concatenation of the per-window lists in window order. -/
theorem runChunkLoop_all_ok (τ : Type) (chunkCall : Nat → Nat → Option (Except Str (List τ)))
    (f : Nat → Nat → List τ) :
    ∀ ws : List (Nat × Nat),
      (∀ w ∈ ws, chunkCall w.1 w.2 = some (Except.ok (f w.1 w.2))) →
      runChunkLoop τ ws chunkCall = some (Except.ok (ws.flatMap (fun w => f w.1 w.2)))
  | [], _ => by simp [runChunkLoop]
  | (s, e) :: rest, h => by
    have h1 := h (s, e) (by simp)
    have ih := runChunkLoop_all_ok τ chunkCall f rest
      (fun w hw => h w (List.mem_cons_of_mem _ hw))
    simp [runChunkLoop, h1, ih]

/-- C2: a PDF of at most 3 pages is processed as a single whole-document
call with no chunking; a larger one is split into `⌈n/2⌉` two-page windows
(last window possibly one page), 1-indexed, in page order, whose page
ranges concatenate to exactly `1..n` (no overlap, no gaps); a 7-page PDF
yields exactly the windows (1,2),(3,4),(5,6),(7,7); and when every chunk
succeeds the merged result is the concatenation of the per-window
transaction lists in window order, with no reordering or deduplication. -/
theorem c2_statement_chunker (τ : Type) :
    (∀ (n : Nat) (whole : Except Str (List τ))
        (vision : Nat → Nat → Except Str Str) (serde : Str → Option (List τ)),
        n ≤ 3 →
        parse_pdf_statement_chunked τ n whole vision serde = some whole) ∧
    (∀ n : Nat, 3 < n → (chunkWindows n).length = (n + 1) / 2) ∧
    (∀ n : Nat, 3 < n → (chunkWindows n).flatMap pagesOfWindow = List.range' 1 n) ∧
    chunkWindows 7 = [(1, 2), (3, 4), (5, 6), (7, 7)] ∧
    (∀ (n : Nat) (whole : Except Str (List τ))
        (vision : Nat → Nat → Except Str Str) (serde : Str → Option (List τ))
        (f : Nat → Nat → List τ),
        3 < n →
        (∀ w ∈ chunkWindows n,
          parse_statement_chunk τ (vision w.1 w.2) serde = some (Except.ok (f w.1 w.2))) →
        parse_pdf_statement_chunked τ n whole vision serde =
          some (Except.ok ((chunkWindows n).flatMap (fun w => f w.1 w.2)))) := by
  refine ⟨?_, ?_, ?_, by decide, ?_⟩
  · intro n whole vision serde hn
    simp [parse_pdf_statement_chunked, hn]
  · intro n hn
    simp only [chunkWindows, List.length_map, List.length_range]
    omega
  · intro n hn
    have h := flatWindows_eq_range n ((n + 2 - 1) / 2) (by omega)
    rw [chunkWindows, h]
    congr 1
    omega
  · intro n whole vision serde f hn hok
    rw [parse_pdf_statement_chunked, if_neg (by omega)]
    exact runChunkLoop_all_ok τ _ f (chunkWindows n) hok

/-- Witness for C2: a 3-page PDF delegates to the whole-document call; the
7-page window geometry is as stated; and a 4-page PDF whose two chunks each
yield `[5]` merges to `[5, 5]` by concatenation in window order. -/
theorem c2_statement_chunker_witness :
    parse_pdf_statement_chunked Nat 3 (Except.ok [7]) (fun _ _ => Except.ok "x".data)
        (fun _ => none) = some (Except.ok [7]) ∧
    (chunkWindows 7).length = (7 + 1) / 2 ∧
    (chunkWindows 7).flatMap pagesOfWindow = List.range' 1 7 ∧
    parse_pdf_statement_chunked Nat 4 (Except.ok [])
        (fun _ _ => Except.ok "[5]".data)
        (fun r => if r = "[5]".data then some [5] else none) =
      some (Except.ok ((chunkWindows 4).flatMap (fun w => (fun _ _ => [5]) w.1 w.2))) :=
  ⟨(c2_statement_chunker Nat).1 3 (Except.ok [7]) (fun _ _ => Except.ok "x".data)
      (fun _ => none) (by decide),
   (c2_statement_chunker Nat).2.1 7 (by decide),
   (c2_statement_chunker Nat).2.2.1 7 (by decide),
   (c2_statement_chunker Nat).2.2.2.2 4 (Except.ok []) (fun _ _ => Except.ok "[5]".data)
      (fun r => if r = "[5]".data then some [5] else none) (fun _ _ => [5])
      (by decide) (fun w _ => rfl)⟩

/-- C3 counterexample, both failure modes the claim gets wrong.  First: a
4-page PDF whose first chunk LLM call fails aborts the whole extraction
with that error, instead of contributing an empty list and continuing with
the second chunk (which here would parse to `[1]`); the serde oracle models
`serde_json`, which succeeds exactly on the well-formed response of the
second chunk.  Second: even an LLM call that succeeds with the unparseable
output `"]x["` does not contribute an empty list — the substring slice
`&response[json_start..json_end]` has `json_start = 2 > 1 = json_end` and
panics (modelled as `none`); the serde oracle is constantly `none` since
`serde_json` rejects that output. -/
theorem c3_counterexample :
    parse_pdf_statement_chunked Nat 4 (Except.ok [])
      (fun s _ => if s = 1 then Except.error "chunk llm call failed".data
                  else Except.ok "[1]".data)
      (fun r => if r = "[1]".data then some [1] else none) =
        some (Except.error "chunk llm call failed".data) ∧
    parse_statement_chunk Nat (Except.ok "]x[".data) (fun _ => none) = none :=
  ⟨rfl, rfl⟩

/-- C3 amended: a chunk whose LLM call succeeds but whose output is
unparseable (both directly and as its bracket-delimited substring)
contributes an empty list — provided the index of the first opening
bracket does not exceed the exclusive end index derived from the last
closing bracket — and if every chunk is of that kind, the whole extraction
still succeeds with an empty merged list.  Outside that proviso (first
bracket more than one position past the last closing bracket, as in
`"]x["`) the substring slice panics, and a chunk whose LLM call itself
fails aborts the whole extraction; both are shown in the counterexample. -/
theorem c3_unparseable_chunk_tolerated (τ : Type) :
    (∀ (vision : Except Str Str) (serde : Str → Option (List τ)) (resp : Str),
        vision = Except.ok resp →
        serde resp = none →
        (findIdxFirst '[' resp).getD 0 ≤
          ((findIdxLast ']' resp).map (· + 1)).getD resp.length →
        serde (sliceRange resp ((findIdxFirst '[' resp).getD 0)
            (((findIdxLast ']' resp).map (· + 1)).getD resp.length)) = none →
        parse_statement_chunk τ vision serde = some (Except.ok [])) ∧
    (∀ (n : Nat) (whole : Except Str (List τ))
        (vision : Nat → Nat → Except Str Str) (serde : Str → Option (List τ)),
        3 < n →
        (∀ w ∈ chunkWindows n,
          parse_statement_chunk τ (vision w.1 w.2) serde = some (Except.ok [])) →
        parse_pdf_statement_chunked τ n whole vision serde = some (Except.ok [])) := by
  constructor
  · intro vision serde resp hv hserde hle hslice
    subst hv
    rw [parse_statement_chunk]
    simp only [hserde]
    rw [if_neg (by omega), hslice]
    rfl
  · intro n whole vision serde hn hok
    rw [parse_pdf_statement_chunked, if_neg (by omega)]
    have h := runChunkLoop_all_ok τ
      (fun s e => parse_statement_chunk τ (vision s e) serde) (fun _ _ => [])
      (chunkWindows n) hok
    rw [h]
    have hflat : ∀ l : List (Nat × Nat), l.flatMap (fun _ => ([] : List τ)) = [] := by
      intro l
      induction l with
      | nil => rfl
      | cons x xs ih => simp [ih]
    rw [hflat]

/-- Witness for C3 amended: a response with no JSON anywhere contributes an
empty list per chunk, and a 4-page PDF of such chunks extracts to `ok []`. -/
theorem c3_unparseable_chunk_tolerated_witness :
    parse_statement_chunk Nat (Except.ok "no json here".data) (fun _ => none) =
        some (Except.ok []) ∧
    parse_pdf_statement_chunked Nat 4 (Except.ok [9])
        (fun _ _ => Except.ok "no json here".data) (fun _ => none) =
      some (Except.ok []) :=
  ⟨(c3_unparseable_chunk_tolerated Nat).1 (Except.ok "no json here".data)
      (fun _ => none) "no json here".data rfl rfl (by decide) rfl,
   (c3_unparseable_chunk_tolerated Nat).2 4 (Except.ok [9])
      (fun _ _ => Except.ok "no json here".data) (fun _ => none) (by decide)
      (fun w _ => (c3_unparseable_chunk_tolerated Nat).1
        (Except.ok "no json here".data) (fun _ => none) "no json here".data
        rfl rfl (by decide) rfl)⟩

/-- C5 counterexample: on the input whose only brace pair is a closing
brace before an opening brace with a character between them, the Rust slice
`&response_text[start..=end]` has its start index two past its end index
and panics (modelled as `none`) — `parse_llm_response` is not total.  The
serde oracle is constantly `none`, reflecting that `serde_json` rejects
this input and its fence-stripped form (the substring attempt is never
reached).  The claim says this input should produce a fallback text card. -/
theorem c5_counterexample :
    parse_llm_response (fun _ => none) "\x7dx\x7b".data = none := rfl

/-- C5 amended: whenever the raw and fence-stripped parse attempts fail and
the first opening brace does not sit more than one position past the last
closing brace (in particular whenever either brace is missing), the parser
returns a single text card wrapping the raw input verbatim with is_error
false; in the excluded brace configuration it panics instead (shown in the
counterexample). -/
theorem c5_fallback_wraps_raw_text :
    ∀ (serde : Str → Option ResponseData) (s : Str),
      serde s = none →
      serde (cleanedOf s) = none →
      (∀ star en, findIdxFirst '\x7b' s = some star →
        findIdxLast '\x7d' s = some en →
        star ≤ en + 1 ∧ serde (sliceRange s star (en + 1)) = none) →
      parse_llm_response serde s = some (fallbackTextCard s) ∧
      fallbackTextCard s = ⟨[ResponseCard.text ⟨s, some false⟩]⟩ := by
  intro serde s h1 h2 h3
  refine ⟨?_, rfl⟩
  rw [parse_llm_response]
  simp only [h1, h2]
  cases hf : findIdxFirst '\x7b' s with
  | none => rfl
  | some star =>
    cases hl : findIdxLast '\x7d' s with
    | none => rfl
    | some en =>
      obtain ⟨hle, hnone⟩ := h3 star en hf hl
      show (if star > en + 1 then none
        else
          match serde (sliceRange s star (en + 1)) with
          | some r => some r
          | none => some (fallbackTextCard s)) = some (fallbackTextCard s)
      rw [if_neg (by omega), hnone]

/-- Witness for C5 amended: plain prose with no braces falls back to a
verbatim non-error text card. -/
theorem c5_fallback_wraps_raw_text_witness :
    parse_llm_response (fun _ => none) "hello".data =
        some (fallbackTextCard "hello".data) ∧
    fallbackTextCard "hello".data =
        ⟨[ResponseCard.text ⟨"hello".data, some false⟩]⟩ :=
  c5_fallback_wraps_raw_text (fun _ => none) "hello".data rfl rfl
    (fun star en hst _ => by
      rw [show findIdxFirst '\x7b' "hello".data = none from by decide] at hst
      exact Option.noConfusion hst)

/-- C6 counterexample: the same pathological brace configuration panics in
the parse tail of `analyze_query` (the slice
`&response_text[start..=end]` with start two past end), instead of
returning the default analysis as the claim states.  The serde oracle is
constantly `none`: `serde_json` rejects this input and its fence-stripped
form. -/
theorem c6_counterexample :
    analyze_query_parse (fun _ => none) "\x7dx\x7b".data = none := rfl

/-- C6 amended: whenever the fence-stripped parse attempt and the
brace-substring attempt both fail and the first opening brace does not sit
more than one position past the last closing brace (in particular whenever
either brace is missing), `analyze_query` falls back to the default
analysis with needs_data false, sql_query absent and query_type "general";
in the excluded brace configuration it panics instead (shown in the
counterexample). -/
theorem c6_default_analysis_on_parse_failure :
    ∀ (serde : Str → Option QueryAnalysis) (s : Str),
      serde (cleanedOf s) = none →
      (∀ star en, findIdxFirst '\x7b' s = some star →
        findIdxLast '\x7d' s = some en →
        star ≤ en + 1 ∧ serde (sliceRange s star (en + 1)) = none) →
      analyze_query_parse serde s = some defaultAnalysis ∧
      defaultAnalysis = ⟨false, none, "general".data⟩ := by
  intro serde s h1 h2
  refine ⟨?_, rfl⟩
  rw [analyze_query_parse]
  simp only [h1]
  cases hf : findIdxFirst '\x7b' s with
  | none => rfl
  | some star =>
    cases hl : findIdxLast '\x7d' s with
    | none => rfl
    | some en =>
      obtain ⟨hle, hnone⟩ := h2 star en hf hl
      show (if star > en + 1 then none
        else
          match serde (sliceRange s star (en + 1)) with
          | some qa => some qa
          | none => some defaultAnalysis) = some defaultAnalysis
      rw [if_neg (by omega), hnone]

/-- Witness for C6 amended: prose with no braces yields the default
analysis. -/
theorem c6_default_analysis_on_parse_failure_witness :
    analyze_query_parse (fun _ => none) "hello".data = some defaultAnalysis ∧
    defaultAnalysis = ⟨false, none, "general".data⟩ :=
  c6_default_analysis_on_parse_failure (fun _ => none) "hello".data rfl
    (fun star en hst _ => by
      rw [show findIdxFirst '\x7b' "hello".data = none from by decide] at hst
      exact Option.noConfusion hst)

/-- C8 counterexample: the provider kind "lmstudio" is OpenAI-family for
text completion (`call_llm` dispatches it to the OpenAI-compatible
backend), yet `call_llm_with_vision` refuses it with the unsupported-vision
error — so vision dispatch does not cover the OpenAI-family kinds, contrary
to the claim. -/
theorem c8_counterexample :
    call_llm_dispatch "lmstudio".data = some TextBackend.openaiCompatible ∧
    call_llm_with_vision_dispatch "lmstudio".data = none ∧
    call_llm_with_vision (fun _ => Except.ok "ok".data) "lmstudio".data =
      Except.error ("Vision not supported for provider: ".data ++ "lmstudio".data) :=
  ⟨by decide, by decide, rfl⟩

/-- C8 amended: `call_llm_with_vision` dispatches to a vision backend
exactly for the kinds "anthropic", "openai" and "openrouter"; every other
kind — including "lmstudio" (OpenAI-family for text completion) as well as
"google" and "ollama" — gets an explicit unsupported error without any
backend request being issued (the result is independent of the backend
oracle). -/
theorem c8_vision_dispatch :
    (∀ p : Str, (call_llm_with_vision_dispatch p).isSome = true ↔
        (p = "anthropic".data ∨ p = "openai".data ∨ p = "openrouter".data)) ∧
    (∀ (p : Str) (backendCall : VisionBackend → Except Str Str),
        call_llm_with_vision_dispatch p = none →
        call_llm_with_vision backendCall p =
          Except.error ("Vision not supported for provider: ".data ++ p)) ∧
    call_llm_with_vision_dispatch "google".data = none ∧
    call_llm_with_vision_dispatch "ollama".data = none ∧
    call_llm_with_vision_dispatch "lmstudio".data = none := by
  refine ⟨?_, ?_, by decide, by decide, by decide⟩
  · intro p
    by_cases h1 : p = "anthropic".data
    · simp [call_llm_with_vision_dispatch, h1]
    · by_cases h2 : p = "openai".data ∨ p = "openrouter".data
      · rw [call_llm_with_vision_dispatch, if_neg h1, if_pos h2]
        simp only [Option.isSome_some, true_iff]
        tauto
      · rw [call_llm_with_vision_dispatch, if_neg h1, if_neg h2]
        simp only [Option.isSome_none, Bool.false_eq_true, false_iff]
        tauto
  · intro p backendCall h
    rw [call_llm_with_vision, h]

/-- Witness for C8 amended: "google" concretely errors without a request,
and "anthropic" concretely dispatches. -/
theorem c8_vision_dispatch_witness :
    call_llm_with_vision (fun _ => Except.ok "ok".data) "google".data =
        Except.error ("Vision not supported for provider: ".data ++ "google".data) ∧
    ((call_llm_with_vision_dispatch "anthropic".data).isSome = true) :=
  ⟨c8_vision_dispatch.2.1 "google".data (fun _ => Except.ok "ok".data) (by decide),
   (c8_vision_dispatch.1 "anthropic".data).mpr (Or.inl rfl)⟩

/-- Helper: rendering a message list succeeds when every body is either at
most 500 bytes long or splits at a character boundary at byte 500. -/
theorem renderMessages_total :
    ∀ msgs : List ConversationMessage,
      (∀ m ∈ msgs, m.content.length ≤ 500 ∨ isCharBoundary m.content 500 = true) →
      ∃ out, renderMessages msgs = some out
  | [], _ => ⟨[], rfl⟩
  | m :: rest, h => by
    have hm := h m (by simp)
    obtain ⟨out, hout⟩ := renderMessages_total rest
      (fun x hx => h x (List.mem_cons_of_mem _ hx))
    have htr : ∃ c, truncateContent m.content = some c := by
      rw [truncateContent]
      rcases hm with hle | hb
      · rw [if_neg (by omega)]
        exact ⟨_, rfl⟩
      · by_cases hlen : m.content.length > 500
        · rw [if_pos hlen, if_pos hb]
          exact ⟨_, rfl⟩
        · rw [if_neg hlen]
          exact ⟨_, rfl⟩
    obtain ⟨c, hc⟩ := htr
    have hline : renderMessage m = some
        ((if m.role = utf8Bytes "user" then utf8Bytes "User" else utf8Bytes "Yuki") ++
          utf8Bytes ": " ++ c ++ utf8Bytes "\n") := by
      rw [renderMessage, hc]
      rfl
    exact ⟨_, by rw [renderMessages, hline, hout]⟩

set_option maxRecDepth 100000 in
/-- C9 counterexample: a single message whose body is 499 ASCII bytes
followed by the two-byte UTF-8 character `0xC3 0xA9` is 501 bytes long, so
the builder slices at byte 500 — which falls inside the two-byte character
— and panics (modelled as `none`), refuting totality; the claimed
truncation unit is also bytes, not characters (this body is only 500
characters long and would not even be truncated under the claim). -/
theorem c9_counterexample :
    build_conversation_context
      [⟨utf8Bytes "user", List.replicate 499 97 ++ [195, 169]⟩] = none := by decide

/-- C9 amended: the conversation-context builder includes at most the first
10 messages; a body of at most 500 bytes is kept unchanged; a body longer
than 500 bytes whose byte 500 falls on a character boundary is truncated to
its first 500 bytes plus an ellipsis; and the builder is total on every
history whose (first 10) message bodies satisfy one of those two
conditions — outside them it panics (shown in the counterexample), and the
truncation unit is bytes, not characters. -/
theorem c9_context_truncation :
    (∀ history : List ConversationMessage,
        build_conversation_context history =
          build_conversation_context (history.take 10)) ∧
    (∀ c : ByteStr, c.length ≤ 500 → truncateContent c = some c) ∧
    (∀ c : ByteStr, 500 < c.length → isCharBoundary c 500 = true →
        truncateContent c = some (c.take 500 ++ utf8Bytes "...")) ∧
    (∀ history : List ConversationMessage,
        (∀ m ∈ history.take 10,
          m.content.length ≤ 500 ∨ isCharBoundary m.content 500 = true) →
        ∃ out, build_conversation_context history = some out) := by
  refine ⟨?_, ?_, ?_, ?_⟩
  · intro history
    cases history with
    | nil => rfl
    | cons m t =>
      rw [build_conversation_context, build_conversation_context,
        if_neg (by simp), if_neg (by simp)]
      rw [List.take_take, min_self]
  · intro c hle
    rw [truncateContent, if_neg (by omega)]
  · intro c hlen hb
    rw [truncateContent, if_pos (by omega), if_pos hb]
  · intro history hsafe
    obtain ⟨out, hout⟩ := renderMessages_total (history.take 10) hsafe
    cases history with
    | nil => exact ⟨[], rfl⟩
    | cons m t =>
      refine ⟨utf8Bytes "\n\n## Recent Conversation History\n" ++ out ++
        utf8Bytes "\n---\nCurrent message:\n", ?_⟩
      rw [build_conversation_context, if_neg (by simp), hout]
      rfl

set_option maxRecDepth 100000 in
/-- Witness for C9 amended: a short ASCII history is rendered totally, a
short body is kept unchanged, and a 501-byte ASCII body is truncated to 500
bytes plus an ellipsis. -/
theorem c9_context_truncation_witness :
    (∃ out, build_conversation_context
        [⟨utf8Bytes "user", utf8Bytes "hi"⟩] = some out) ∧
    truncateContent (utf8Bytes "hi") = some (utf8Bytes "hi") ∧
    truncateContent (List.replicate 501 97) =
        some ((List.replicate 501 97).take 500 ++ utf8Bytes "...") :=
  ⟨c9_context_truncation.2.2.2 [⟨utf8Bytes "user", utf8Bytes "hi"⟩] (by decide),
   c9_context_truncation.2.1 (utf8Bytes "hi") (by decide),
   c9_context_truncation.2.2.1 (List.replicate 501 97) (by decide) (by decide)⟩

end Yuki
